import Mathlib

/-!
Verification of the AutomatedProbing repository (files get_conductivity.py
and check_connection.py) against its natural-language specification.

The embedding models measured voltages, currents, resistances and
thicknesses as exact rationals.  Interactive input streams are modelled
as lists (an exhausted list models a blocked prompt), device phases that
may raise exceptions are modelled with Except, and the per-run results
list is a list of four-field records mirroring the Python tuples
[meas_i, meas_v, abs(rs), sigma].
-/

namespace AutomatedProbing

/-- Configuration constant from get_conductivity.py: correction factor for
a 6cm x 6cm sample (sheet resistance). -/
def CORRECTION_FACTOR : ℚ := 4.532

/-- Configuration constant: minimum current (A) for good contact. -/
def CONTACT_THRESHOLD : ℚ := 0.0001

/-- Configuration constant: how much (mm) to raise the stage if no contact. -/
def RETRY_INCREMENT_MM : ℚ := 0.1

/-- Sheet-resistance computation from run_measurement (lines 238-242):
if abs(meas_i) > 1e-7 then rs = (meas_v / meas_i) * CORRECTION_FACTOR
else rs = 0. -/
def computeRs (meas_v meas_i : ℚ) : ℚ :=
  if (1e-7 : ℚ) < |meas_i| then meas_v / meas_i * CORRECTION_FACTOR else 0

/-- Conductivity computation from run_measurement (lines 244-249):
if abs(rs) > 1e-9 and thickness_m > 0 then sigma = 1 / (abs(rs) * thickness_m)
else sigma = 0. -/
def computeSigma (rs thickness_m : ℚ) : ℚ :=
  if (1e-9 : ℚ) < |rs| ∧ 0 < thickness_m then 1 / (|rs| * thickness_m) else 0

/-- One tuple of the in-memory results list of run_measurement:
results.append([meas_i, meas_v, abs(rs), sigma]). -/
structure MeasRow where
  current : ℚ
  voltage : ℚ
  rs : ℚ
  sigma : ℚ
deriving DecidableEq, Repr

/-- The tuple appended for one sweep point (line 251): the measured
current, the measured voltage, abs(rs) and sigma. -/
def measurePoint (meas_v meas_i thickness_m : ℚ) : MeasRow :=
  { current := meas_i
    voltage := meas_v
    rs := |computeRs meas_v meas_i|
    sigma := computeSigma (computeRs meas_v meas_i) thickness_m }

/-- The results list built by run_measurement over the voltage sweep.
Each sweep point yields either a device reading (meas_v, meas_i) or an
exception (none); an exception at a point is caught, printed and the
point is skipped (lines 229-255). -/
def runMeasurement (readings : List (Option (ℚ × ℚ))) (thickness_m : ℚ) :
    List MeasRow :=
  readings.filterMap (fun o => o.map (fun p => measurePoint p.1 p.2 thickness_m))

/-- C1: for every measurement point whose measured current I satisfies
|I| > 1e-7, the computed sheet resistance equals (V/I) * 4.532. -/
theorem computeRs_above_threshold (meas_v meas_i : ℚ)
    (h : (1e-7 : ℚ) < |meas_i|) :
    computeRs meas_v meas_i = meas_v / meas_i * (4.532 : ℚ) := by
  simp only [computeRs, CORRECTION_FACTOR, if_pos h]

/-- Witness for C1 at V = 1, I = 1. -/
theorem computeRs_above_threshold_witness :
    (1e-7 : ℚ) < |(1 : ℚ)| ∧ computeRs 1 1 = 1 / 1 * (4.532 : ℚ) :=
  ⟨by norm_num, computeRs_above_threshold 1 1 (by norm_num)⟩

/-- Counterexample to C2 as stated: with thickness 1 > 0, the computed
conductivity differs from 1/(Rs * thickness) both at a negative sheet
resistance Rs = -10 (the code divides by abs(Rs)) and at a tiny sheet
resistance Rs = 1e-10 (the guard |Rs| > 1e-9 forces sigma = 0). -/
theorem computeSigma_counterexample :
    computeSigma (-10) 1 ≠ 1 / ((-10 : ℚ) * 1) ∧
    computeSigma (1e-10 : ℚ) 1 ≠ 1 / ((1e-10 : ℚ) * 1) := by
  have h1 : |(-10 : ℚ)| = 10 := by
    rw [abs_of_nonpos (by norm_num)]; norm_num
  have h2 : |(1e-10 : ℚ)| = (1e-10 : ℚ) := abs_of_nonneg (by norm_num)
  constructor
  · simp only [computeSigma, h1]
    norm_num
  · simp only [computeSigma, h2]
    norm_num

/-- C2 (amended): for every sheet resistance Rs with |Rs| > 1e-9 and every
thickness > 0, the computed conductivity equals 1/(|Rs| * thickness). -/
theorem computeSigma_above_guard (rs thickness_m : ℚ)
    (hrs : (1e-9 : ℚ) < |rs|) (ht : 0 < thickness_m) :
    computeSigma rs thickness_m = 1 / (|rs| * thickness_m) := by
  simp only [computeSigma, if_pos (And.intro hrs ht)]

/-- Witness for the amended C2 at Rs = 10, thickness = 1. -/
theorem computeSigma_above_guard_witness :
    (1e-9 : ℚ) < |(10 : ℚ)| ∧ (0 : ℚ) < 1 ∧
    computeSigma 10 1 = 1 / (|(10 : ℚ)| * 1) :=
  ⟨by norm_num, by norm_num,
    computeSigma_above_guard 10 1 (by norm_num) (by norm_num)⟩

/-- C3: under the guards the division branches are never taken: if
|I| <= 1e-7 the computed sheet resistance is 0, and if |Rs| <= 1e-9 the
computed conductivity is 0. -/
theorem guards_force_zero :
    (∀ meas_v meas_i : ℚ, |meas_i| ≤ (1e-7 : ℚ) → computeRs meas_v meas_i = 0) ∧
    (∀ rs thickness_m : ℚ, |rs| ≤ (1e-9 : ℚ) → computeSigma rs thickness_m = 0) := by
  constructor
  · intro meas_v meas_i h
    simp only [computeRs, if_neg (not_lt.mpr h)]
  · intro rs thickness_m h
    have : ¬ ((1e-9 : ℚ) < |rs| ∧ 0 < thickness_m) := fun hc => absurd hc.1 (not_lt.mpr h)
    simp only [computeSigma, if_neg this]

/-- Witness for C3 at I = 1e-8 (V = 1) and Rs = 1e-10 (thickness 1). -/
theorem guards_force_zero_witness :
    computeRs 1 (1e-8 : ℚ) = 0 ∧ computeSigma (1e-10 : ℚ) 1 = 0 :=
  ⟨guards_force_zero.1 1 (1e-8 : ℚ) (by rw [abs_of_nonneg] <;> norm_num),
    guards_force_zero.2 (1e-10 : ℚ) 1 (by rw [abs_of_nonneg] <;> norm_num)⟩

/-- Every tuple of the results list stores abs(rs), which is nonnegative,
and its conductivity is either 0 or a reciprocal of a positive number. -/
theorem measurePoint_nonneg (meas_v meas_i thickness_m : ℚ) :
    0 ≤ (measurePoint meas_v meas_i thickness_m).rs ∧
    0 ≤ (measurePoint meas_v meas_i thickness_m).sigma := by
  refine ⟨abs_nonneg _, ?_⟩
  simp only [measurePoint, computeSigma]
  split
  · rename_i hc
    have hpos : 0 < |computeRs meas_v meas_i| * thickness_m :=
      mul_pos (lt_trans (by norm_num) hc.1) hc.2
    exact le_of_lt (div_pos one_pos hpos)
  · exact le_refl 0

/-- C9: every tuple appended to the in-memory results list, at every point
of every sweep, has a nonnegative sheet resistance (abs(rs) is stored)
and a nonnegative conductivity. -/
theorem runMeasurement_rows_nonneg (readings : List (Option (ℚ × ℚ)))
    (thickness_m : ℚ) (row : MeasRow)
    (hrow : row ∈ runMeasurement readings thickness_m) :
    0 ≤ row.rs ∧ 0 ≤ row.sigma := by
  simp only [runMeasurement, List.mem_filterMap] at hrow
  obtain ⟨o, _, ho⟩ := hrow
  cases o with
  | none => simp at ho
  | some p =>
    simp only [Option.map_some'] at ho
    cases ho
    exact measurePoint_nonneg p.1 p.2 thickness_m

/-- Witness for C9 on a one-point sweep. -/
theorem runMeasurement_rows_nonneg_witness :
    0 ≤ (measurePoint 1 1 1).rs ∧ 0 ≤ (measurePoint 1 1 1).sigma :=
  runMeasurement_rows_nonneg [some (1, 1)] 1 (measurePoint 1 1 1)
    (by
      have h : runMeasurement [some (1, 1)] 1 = [measurePoint 1 1 1] := rfl
      rw [h]
      exact List.mem_singleton.mpr rfl)

/-- One CSV cell: the header row holds strings, the data rows hold the
numeric values handed to csv.writer. -/
inductive Cell where
  | str (s : String)
  | num (q : ℚ)
deriving DecidableEq, Repr

/-- The header row written by save_results (line 278). -/
def csvHeader : List Cell :=
  [Cell.str "Current (A)", Cell.str "Voltage (V)",
    Cell.str "Sheet Resistance (Ohm/sq)", Cell.str "Conductivity (S/m)"]

/-- The CSV data row for one results tuple, in the tuple's order. -/
def rowOf (r : MeasRow) : List Cell :=
  [Cell.num r.current, Cell.num r.voltage, Cell.num r.rs, Cell.num r.sigma]

/-- The full CSV table written by save_results (lines 275-279): the header
row followed by one row per results tuple, via writer.writerows(data). -/
def csvTable (data : List MeasRow) : List (List Cell) :=
  csvHeader :: data.map rowOf

/-- np.mean on a list of rationals: sum divided by length. -/
def listMean (l : List ℚ) : ℚ := l.sum / l.length

/-- valid_rs from save_results (line 283):
[r[2] for r in data if 5 < r[2] < 1000]. -/
def valid_rs (data : List MeasRow) : List ℚ :=
  (data.filter (fun r => decide (5 < r.rs ∧ r.rs < 1000))).map MeasRow.rs

/-- avg_rs from save_results (line 284): np.mean(valid_rs) if valid_rs else 0. -/
def avg_rs (data : List MeasRow) : ℚ :=
  if valid_rs data = [] then 0 else listMean (valid_rs data)

/-- valid_sigma from save_results (line 287):
[r[3] for r in data if r[3] > 0 and 5 < r[2] < 1000]. -/
def valid_sigma (data : List MeasRow) : List ℚ :=
  (data.filter (fun r => decide (0 < r.sigma ∧ 5 < r.rs ∧ r.rs < 1000))).map
    MeasRow.sigma

/-- avg_sigma from save_results (line 288):
np.mean(valid_sigma) if valid_sigma else 0. -/
def avg_sigma (data : List MeasRow) : ℚ :=
  if valid_sigma data = [] then 0 else listMean (valid_sigma data)

/-- C6: the CSV has exactly the four header columns in order, and one data
row per measurement point holding that point's measured current, measured
voltage, sheet resistance and conductivity, in that order. -/
theorem csvTable_shape (readings : List (Option (ℚ × ℚ))) (thickness_m : ℚ) :
    (csvTable (runMeasurement readings thickness_m)).head? =
      some [Cell.str "Current (A)", Cell.str "Voltage (V)",
        Cell.str "Sheet Resistance (Ohm/sq)", Cell.str "Conductivity (S/m)"] ∧
    (csvTable (runMeasurement readings thickness_m)).length =
      (runMeasurement readings thickness_m).length + 1 ∧
    ∀ k (hk : k < (runMeasurement readings thickness_m).length),
      (csvTable (runMeasurement readings thickness_m))[k + 1]? =
        some [Cell.num ((runMeasurement readings thickness_m).get ⟨k, hk⟩).current,
          Cell.num ((runMeasurement readings thickness_m).get ⟨k, hk⟩).voltage,
          Cell.num ((runMeasurement readings thickness_m).get ⟨k, hk⟩).rs,
          Cell.num ((runMeasurement readings thickness_m).get ⟨k, hk⟩).sigma] := by
  refine ⟨rfl, by simp [csvTable], ?_⟩
  intro k hk
  have hmap : k < ((runMeasurement readings thickness_m).map rowOf).length := by
    simpa using hk
  calc (csvTable (runMeasurement readings thickness_m))[k + 1]?
      = ((runMeasurement readings thickness_m).map rowOf)[k]? := by
        simp [csvTable]
    _ = some (rowOf ((runMeasurement readings thickness_m).get ⟨k, hk⟩)) := by
        rw [List.getElem?_eq_getElem hmap]
        simp [List.getElem_map, rowOf]

/-- Witness for C6 on a one-point sweep. -/
theorem csvTable_shape_witness :
    (csvTable (runMeasurement [some (1, 1)] 1))[0 + 1]? =
      some [Cell.num ((runMeasurement [some (1, 1)] 1).get ⟨0, by decide⟩).current,
        Cell.num ((runMeasurement [some (1, 1)] 1).get ⟨0, by decide⟩).voltage,
        Cell.num ((runMeasurement [some (1, 1)] 1).get ⟨0, by decide⟩).rs,
        Cell.num ((runMeasurement [some (1, 1)] 1).get ⟨0, by decide⟩).sigma] :=
  (csvTable_shape [some (1, 1)] 1).2.2 0 (by decide)

/-- The mean of a nonempty list times its length is its sum. -/
theorem listMean_mul_length (l : List ℚ) (h : l ≠ []) :
    listMean l * (l.length : ℚ) = l.sum := by
  have h0 : l.length ≠ 0 := by simpa using h
  have hlen : (l.length : ℚ) ≠ 0 := Nat.cast_ne_zero.mpr h0
  simp only [listMean]
  field_simp

/-- C8: the summary average sheet resistance is the mean of the recorded
Rs values strictly between 5 and 1000 (0 when none qualify); the summary
average conductivity is the mean of the sigma values at those same
filtered points that are additionally positive (0 when none qualify);
and the CSV data rows are the unfiltered results list. -/
theorem summary_averages (data : List MeasRow) :
    (data.filter (fun r => decide (5 < r.rs ∧ r.rs < 1000)) = [] →
      avg_rs data = 0) ∧
    (data.filter (fun r => decide (5 < r.rs ∧ r.rs < 1000)) ≠ [] →
      avg_rs data *
          ((data.filter (fun r => decide (5 < r.rs ∧ r.rs < 1000))).length : ℚ) =
        ((data.filter (fun r => decide (5 < r.rs ∧ r.rs < 1000))).map
          MeasRow.rs).sum) ∧
    (data.filter (fun r => decide (0 < r.sigma ∧ 5 < r.rs ∧ r.rs < 1000)) = [] →
      avg_sigma data = 0) ∧
    (data.filter (fun r => decide (0 < r.sigma ∧ 5 < r.rs ∧ r.rs < 1000)) ≠ [] →
      avg_sigma data *
          ((data.filter
            (fun r => decide (0 < r.sigma ∧ 5 < r.rs ∧ r.rs < 1000))).length : ℚ) =
        ((data.filter (fun r => decide (0 < r.sigma ∧ 5 < r.rs ∧ r.rs < 1000))).map
          MeasRow.sigma).sum) ∧
    (csvTable data).drop 1 = data.map rowOf := by
  refine ⟨?_, ?_, ?_, ?_, rfl⟩
  · intro h
    simp only [avg_rs, valid_rs, h]
    simp
  · intro h
    have hne : valid_rs data ≠ [] := by
      simp only [valid_rs]
      simpa using h
    rw [avg_rs, if_neg hne]
    have hlen : (valid_rs data).length =
        (data.filter (fun r => decide (5 < r.rs ∧ r.rs < 1000))).length := by
      simp [valid_rs]
    rw [← hlen]
    exact listMean_mul_length _ hne
  · intro h
    simp only [avg_sigma, valid_sigma, h]
    simp
  · intro h
    have hne : valid_sigma data ≠ [] := by
      simp only [valid_sigma]
      simpa using h
    rw [avg_sigma, if_neg hne]
    have hlen : (valid_sigma data).length =
        (data.filter (fun r => decide (0 < r.sigma ∧ 5 < r.rs ∧ r.rs < 1000))).length := by
      simp [valid_sigma]
    rw [← hlen]
    exact listMean_mul_length _ hne

/-- Witness for C8 on a two-row list, one row inside the filter band and
one outside it. -/
theorem summary_averages_witness :
    avg_rs [⟨1, 1, 10, 2⟩, ⟨1, 1, 2000, 3⟩] *
        (([(⟨1, 1, 10, 2⟩ : MeasRow), ⟨1, 1, 2000, 3⟩].filter
          (fun r => decide (5 < r.rs ∧ r.rs < 1000))).length : ℚ) =
      (([(⟨1, 1, 10, 2⟩ : MeasRow), ⟨1, 1, 2000, 3⟩].filter
        (fun r => decide (5 < r.rs ∧ r.rs < 1000))).map MeasRow.rs).sum :=
  (summary_averages [⟨1, 1, 10, 2⟩, ⟨1, 1, 2000, 3⟩]).2.1 (by decide)

/-- verify_contact (lines 151-211).  The device is modelled by measure,
giving the raw test current at each stage height in mm (the code takes
its absolute value); the user is modelled by the stream of prompt
answers.  Good contact (meas_i >= CONTACT_THRESHOLD) returns True with
the current height.  Otherwise answer 1 moves the stage up by
RETRY_INCREMENT_MM and re-tests, answer 2 aborts with False, answer 3
overrides with True, and any other answer re-prompts.  An exhausted
answer stream models a prompt that never receives a valid answer. -/
def verifyContact (measure : ℚ → ℚ) : ℚ → List String → Option (Bool × ℚ)
  | h, [] =>
    if CONTACT_THRESHOLD ≤ |measure h| then some (true, h) else none
  | h, c :: cs =>
    if CONTACT_THRESHOLD ≤ |measure h| then some (true, h)
    else if c = "1" then verifyContact measure (h + RETRY_INCREMENT_MM) cs
    else if c = "2" then some (false, h)
    else if c = "3" then some (true, h)
    else verifyContact measure h cs

/-- Whenever verify_contact returns, the final height is at least the
starting height and exceeds it by at most one retry increment per
consumed answer. -/
theorem verifyContact_height_bound (measure : ℚ → ℚ) :
    ∀ (choices : List String) (h : ℚ) (b : Bool) (hf : ℚ),
      verifyContact measure h choices = some (b, hf) →
      h ≤ hf ∧ hf ≤ h + (choices.length : ℚ) * RETRY_INCREMENT_MM := by
  intro choices
  induction choices with
  | nil =>
    intro h b hf heq
    simp only [verifyContact] at heq
    split at heq
    · simp only [Option.some.injEq, Prod.mk.injEq] at heq
      obtain ⟨-, rfl⟩ := heq
      simp
    · exact absurd heq (by simp)
  | cons c cs ih =>
    intro h b hf heq
    have hinc : (0 : ℚ) ≤ RETRY_INCREMENT_MM := by norm_num [RETRY_INCREMENT_MM]
    have hlen : ((c :: cs).length : ℚ) = (cs.length : ℚ) + 1 := by
      simp [List.length_cons]
    simp only [verifyContact] at heq
    split at heq
    · simp only [Option.some.injEq, Prod.mk.injEq] at heq
      obtain ⟨-, rfl⟩ := heq
      refine ⟨le_refl _, ?_⟩
      have : (0 : ℚ) ≤ ((c :: cs).length : ℚ) * RETRY_INCREMENT_MM := by
        positivity
      linarith
    · split at heq
      · have hb := ih (h + RETRY_INCREMENT_MM) b hf heq
        refine ⟨?_, ?_⟩
        · linarith [hb.1]
        · rw [hlen]
          linarith [hb.2]
      · split at heq
        · simp only [Option.some.injEq, Prod.mk.injEq] at heq
          obtain ⟨-, rfl⟩ := heq
          refine ⟨le_refl _, ?_⟩
          have : (0 : ℚ) ≤ ((c :: cs).length : ℚ) * RETRY_INCREMENT_MM := by
            positivity
          linarith
        · split at heq
          · simp only [Option.some.injEq, Prod.mk.injEq] at heq
            obtain ⟨-, rfl⟩ := heq
            refine ⟨le_refl _, ?_⟩
            have : (0 : ℚ) ≤ ((c :: cs).length : ℚ) * RETRY_INCREMENT_MM := by
              positivity
            linarith
          · have hb := ih h b hf heq
            refine ⟨hb.1, ?_⟩
            rw [hlen]
            have hcast : (0 : ℚ) ≤ (cs.length : ℚ) := by positivity
            linarith [hb.2]

/-- C4: at a failed contact test (current below the threshold), answer 1
raises the height by exactly RETRY_INCREMENT_MM = 0.1 mm and repeats the
test, answer 2 aborts, answer 3 overrides and accepts; and the retry
process is bounded: any returned height exceeds the starting height by at
most RETRY_INCREMENT_MM per available answer. -/
theorem verify_contact_spec :
    (∀ (measure : ℚ → ℚ) (h : ℚ) (cs : List String),
        |measure h| < CONTACT_THRESHOLD →
        verifyContact measure h ("1" :: cs) =
            verifyContact measure (h + RETRY_INCREMENT_MM) cs ∧
        verifyContact measure h ("2" :: cs) = some (false, h) ∧
        verifyContact measure h ("3" :: cs) = some (true, h)) ∧
    (∀ (measure : ℚ → ℚ) (h : ℚ) (choices : List String) (b : Bool) (hf : ℚ),
        verifyContact measure h choices = some (b, hf) →
        h ≤ hf ∧ hf ≤ h + (choices.length : ℚ) * RETRY_INCREMENT_MM) := by
  constructor
  · intro measure h cs hlt
    have hno : ¬ CONTACT_THRESHOLD ≤ |measure h| := not_le.mpr hlt
    refine ⟨?_, ?_, ?_⟩
    · simp only [verifyContact]
      rw [if_neg hno]
      simp
    · simp only [verifyContact]
      rw [if_neg hno]
      simp
    · simp only [verifyContact]
      rw [if_neg hno]
      simp
  · exact fun measure h choices => verifyContact_height_bound measure choices h

/-- Witness for C4: an always-zero current aborts on answer 2 at height
27/5 mm, and a successful first test returns that same height. -/
theorem verify_contact_spec_witness :
    verifyContact (fun _ => 0) (27 / 5) ("2" :: []) = some (false, 27 / 5) ∧
    ((27 / 5 : ℚ) ≤ 27 / 5 ∧
      (27 / 5 : ℚ) ≤ 27 / 5 + (([] : List String).length : ℚ) * RETRY_INCREMENT_MM) :=
  ⟨(verify_contact_spec.1 (fun _ => 0) (27 / 5) []
      (by norm_num [CONTACT_THRESHOLD])).2.1,
    verify_contact_spec.2 (fun _ => 1) (27 / 5) [] true (27 / 5)
      (by
        simp only [verifyContact]
        rw [if_pos]
        rw [abs_of_nonneg] <;> norm_num [CONTACT_THRESHOLD])⟩

/-- A device call made while shutting down (shutdown, lines 323-343). -/
inductive DevAction where
  | setVoltageZero
  | disableProbe
  | closeProbe
  | closeStage
deriving DecidableEq, Repr

/-- The three probe calls of shutdown's probe block, in program order:
set voltage 0, set enabled False, close the probe handle. -/
def probeShutdownCalls : List DevAction :=
  [DevAction.setVoltageZero, DevAction.disableProbe, DevAction.closeProbe]

/-- The calls attempted by shutdown.  The probe block is a single
try/except: if its i-th call raises, the later probe calls are skipped;
the stage block then independently attempts to close the stage handle.
A handle that is None is skipped entirely. -/
def shutdownActions (probeSet stageSet : Bool) (probeFailAt : Option (Fin 3)) :
    List DevAction :=
  (if probeSet then
    match probeFailAt with
    | none => probeShutdownCalls
    | some i => probeShutdownCalls.take (i.1 + 1)
  else []) ++ (if stageSet then [DevAction.closeStage] else [])

/-- Environment for one execution of AutomatedProbeSystem.run: the outcome
of each phase in program order (error means an exception escapes that
phase), plus which probe call of shutdown raises, if any. -/
structure RunEnv where
  details : Except Unit Unit
  connect : Except Unit Bool
  moveContact : Except Unit ℚ
  verify : Except Unit Bool
  measure : Except Unit Unit
  save : Except Unit Unit
  home : Except Unit Unit
  probeFailAt : Option (Fin 3)

/-- Observable outcome of AutomatedProbeSystem.run: its return value
(which main passes to sys.exit), the device calls attempted while
shutting down, and whether the top-level except handler printed an
error. -/
structure RunResult where
  exitCode : ℕ
  actions : List DevAction
  errorPrinted : Bool
deriving DecidableEq, Repr

/-- AutomatedProbeSystem.run (lines 345-392).  Phases execute in program
order; the first phase whose outcome is an exception transfers control to
the top-level except handler, which prints the error, calls shutdown and
returns 1.  connect_devices returning False returns 1 with no shutdown;
verify_contact returning False returns home, shuts down and returns 1;
the fully successful path shuts down and returns 0. -/
def run (env : RunEnv) : RunResult :=
  match env.details with
  | Except.error _ => ⟨1, shutdownActions false false env.probeFailAt, true⟩
  | Except.ok _ =>
    match env.connect with
    | Except.error _ => ⟨1, shutdownActions true false env.probeFailAt, true⟩
    | Except.ok false => ⟨1, [], false⟩
    | Except.ok true =>
      match env.moveContact with
      | Except.error _ => ⟨1, shutdownActions true true env.probeFailAt, true⟩
      | Except.ok _ =>
        match env.verify with
        | Except.error _ => ⟨1, shutdownActions true true env.probeFailAt, true⟩
        | Except.ok false =>
          match env.home with
          | Except.error _ => ⟨1, shutdownActions true true env.probeFailAt, true⟩
          | Except.ok _ => ⟨1, shutdownActions true true env.probeFailAt, false⟩
        | Except.ok true =>
          match env.measure with
          | Except.error _ => ⟨1, shutdownActions true true env.probeFailAt, true⟩
          | Except.ok _ =>
            match env.save with
            | Except.error _ => ⟨1, shutdownActions true true env.probeFailAt, true⟩
            | Except.ok _ =>
              match env.home with
              | Except.error _ => ⟨1, shutdownActions true true env.probeFailAt, true⟩
              | Except.ok _ => ⟨0, shutdownActions true true env.probeFailAt, false⟩

/-- An exception escapes some call made after the devices were connected:
the first deviating phase, in program order, is an error. -/
def exceptionEscapes (env : RunEnv) : Prop :=
  env.details = Except.ok () ∧ env.connect = Except.ok true ∧
  (env.moveContact = Except.error () ∨
    ((∃ hmm, env.moveContact = Except.ok hmm) ∧
      (env.verify = Except.error () ∨
        (env.verify = Except.ok false ∧ env.home = Except.error ()) ∨
        (env.verify = Except.ok true ∧
          (env.measure = Except.error () ∨
            (env.measure = Except.ok () ∧
              (env.save = Except.error () ∨
                (env.save = Except.ok () ∧ env.home = Except.error ()))))))))

/-- C5: whenever an exception escapes a call of the measurement run, the
top-level handler of run prints it, shutdown is attempted with both
handles set, and run returns the non-zero exit code 1; when no shutdown
call itself raises, the attempted calls are exactly: probe voltage
zeroed, probe disabled, probe handle closed, stage handle closed. -/
theorem run_exception_handling (env : RunEnv) (hesc : exceptionEscapes env) :
    (run env).exitCode = 1 ∧ (run env).errorPrinted = true ∧
    (run env).actions = shutdownActions true true env.probeFailAt ∧
    (env.probeFailAt = none → (run env).actions =
      [DevAction.setVoltageZero, DevAction.disableProbe,
        DevAction.closeProbe, DevAction.closeStage]) := by
  obtain ⟨hd, hc, hrest⟩ := hesc
  have hnone : ∀ h2 : env.probeFailAt = none,
      shutdownActions true true env.probeFailAt =
        [DevAction.setVoltageZero, DevAction.disableProbe,
          DevAction.closeProbe, DevAction.closeStage] := by
    intro h2
    rw [h2]
    rfl
  rcases hrest with hmv | ⟨⟨hmm, hmv⟩, hrest⟩
  · simp only [run, hd, hc, hmv]
    exact ⟨trivial, trivial, trivial, hnone⟩
  · rcases hrest with hv | ⟨hv, hh⟩ | ⟨hv, hrest⟩
    · simp only [run, hd, hc, hmv, hv]
      exact ⟨trivial, trivial, trivial, hnone⟩
    · simp only [run, hd, hc, hmv, hv, hh]
      exact ⟨trivial, trivial, trivial, hnone⟩
    · rcases hrest with hm | ⟨hm, hrest⟩
      · simp only [run, hd, hc, hmv, hv, hm]
        exact ⟨trivial, trivial, trivial, hnone⟩
      · rcases hrest with hs | ⟨hs, hh⟩
        · simp only [run, hd, hc, hmv, hv, hm, hs]
          exact ⟨trivial, trivial, trivial, hnone⟩
        · simp only [run, hd, hc, hmv, hv, hm, hs, hh]
          exact ⟨trivial, trivial, trivial, hnone⟩

/-- Witness for C5: a run whose stage move raises, with a clean shutdown. -/
theorem run_exception_handling_witness :
    (run ⟨Except.ok (), Except.ok true, Except.error (), Except.ok true,
        Except.ok (), Except.ok (), Except.ok (), none⟩).exitCode = 1 ∧
    (run ⟨Except.ok (), Except.ok true, Except.error (), Except.ok true,
        Except.ok (), Except.ok (), Except.ok (), none⟩).errorPrinted = true ∧
    (run ⟨Except.ok (), Except.ok true, Except.error (), Except.ok true,
        Except.ok (), Except.ok (), Except.ok (), none⟩).actions =
      shutdownActions true true none ∧
    ((none : Option (Fin 3)) = none →
      (run ⟨Except.ok (), Except.ok true, Except.error (), Except.ok true,
          Except.ok (), Except.ok (), Except.ok (), none⟩).actions =
        [DevAction.setVoltageZero, DevAction.disableProbe,
          DevAction.closeProbe, DevAction.closeStage]) :=
  run_exception_handling
    ⟨Except.ok (), Except.ok true, Except.error (), Except.ok true,
      Except.ok (), Except.ok (), Except.ok (), none⟩
    ⟨rfl, rfl, Or.inl rfl⟩

/-- Outcome of check_connection.py's main (lines 124-151): the pass/fail
status reported for each device and the returned exit code. -/
structure CheckOutcome where
  stageReported : Bool
  probeReported : Bool
  exitCode : ℕ
deriving DecidableEq, Repr

/-- check_connection.py main: runs check_stage then check_probe, reports
each result, and returns 0 when both succeeded and 1 otherwise. -/
def checkMain (stage_ok probe_ok : Bool) : CheckOutcome :=
  { stageReported := stage_ok
    probeReported := probe_ok
    exitCode := if stage_ok && probe_ok then 0 else 1 }

/-- C7: main reports the pass/fail of each device check and returns exit
code 0 exactly when both checks return True, and 1 in every other case. -/
theorem checkMain_exit (stage_ok probe_ok : Bool) :
    (checkMain stage_ok probe_ok).stageReported = stage_ok ∧
    (checkMain stage_ok probe_ok).probeReported = probe_ok ∧
    ((checkMain stage_ok probe_ok).exitCode = 0 ↔
      stage_ok = true ∧ probe_ok = true) ∧
    (¬(stage_ok = true ∧ probe_ok = true) →
      (checkMain stage_ok probe_ok).exitCode = 1) := by
  refine ⟨rfl, rfl, ?_, ?_⟩
  · cases stage_ok <;> cases probe_ok <;> simp [checkMain]
  · intro hnot
    cases stage_ok <;> cases probe_ok <;> simp_all [checkMain]

/-- Witness for C7 at a failing probe check. -/
theorem checkMain_exit_witness :
    (checkMain true false).exitCode = 1 :=
  (checkMain_exit true false).2.2.2 (by simp)

/-- get_sample_details' thickness loop (lines 110-122), with the stream of
prompt answers modelled by their float(.) parse results (none for a
ValueError).  A non-positive parse re-prompts; a positive thickness in mm
is converted to meters by multiplying by 1e-3; an exhausted stream models
a prompt still waiting for valid input. -/
def getSampleThickness : List (Option ℚ) → Option ℚ
  | [] => none
  | none :: rest => getSampleThickness rest
  | some t :: rest =>
    if t ≤ 0 then getSampleThickness rest else some (t * (1e-3 : ℚ))

/-- C10: whenever the thickness prompt returns, the stored thickness_m is
strictly positive, so the thickness_m > 0 guard of the conductivity
computation always holds during the measurement run: for any Rs, the
guard reduces to the |Rs| > 1e-9 test alone. -/
theorem getSampleThickness_pos :
    ∀ (inputs : List (Option ℚ)) (t : ℚ),
      getSampleThickness inputs = some t →
      0 < t ∧ ∀ rs : ℚ,
        computeSigma rs t = if (1e-9 : ℚ) < |rs| then 1 / (|rs| * t) else 0 := by
  intro inputs
  induction inputs with
  | nil =>
    intro t ht
    exact absurd ht (by simp [getSampleThickness])
  | cons o rest ih =>
    intro t ht
    have hmain : 0 < t → 0 < t ∧ ∀ rs : ℚ,
        computeSigma rs t = if (1e-9 : ℚ) < |rs| then 1 / (|rs| * t) else 0 := by
      intro hpos
      refine ⟨hpos, fun rs => ?_⟩
      by_cases hrs : (1e-9 : ℚ) < |rs|
      · rw [if_pos hrs]
        simp only [computeSigma, if_pos (And.intro hrs hpos)]
      · rw [if_neg hrs]
        have : ¬ ((1e-9 : ℚ) < |rs| ∧ 0 < t) := fun hc => hrs hc.1
        simp only [computeSigma, if_neg this]
    cases o with
    | none => exact ih t ht
    | some mm =>
      simp only [getSampleThickness] at ht
      split at ht
      · exact ih t ht
      · rename_i hmm
        simp only [Option.some.injEq] at ht
        subst ht
        have hpos : 0 < mm := lt_of_not_le hmm
        exact hmain (by positivity)

/-- Witness for C10: a first invalid answer, then 2 mm. -/
theorem getSampleThickness_pos_witness :
    (0 : ℚ) < 2 * (1e-3 : ℚ) ∧ ∀ rs : ℚ,
      computeSigma rs (2 * (1e-3 : ℚ)) =
        if (1e-9 : ℚ) < |rs| then 1 / (|rs| * (2 * (1e-3 : ℚ))) else 0 :=
  getSampleThickness_pos [none, some (-1), some 2] (2 * (1e-3 : ℚ)) (by
    simp [getSampleThickness])

end AutomatedProbing
